import Mathlib

/-
Shallow embedding of the Hermes file-transfer server backbone
(crates hermes_common and hermes_server).

Conventions used throughout this development:
* Rust machine integers (u32) are embedded as Nat; none of the verified
  operations can overflow on the inputs considered.
* Rust f32 values are embedded as exact rationals, so the arithmetic
  formulas of the telemetry store are stated exactly.
* Filesystem and socket effects are passed in explicitly: a function
  argument stands for the ambient filesystem (what reading a path yields,
  whether a path exists), and a Rust function that mutates self is
  embedded as a state-passing function returning the new state together
  with its Result value.
* A Rust panic (an unwrap of None) is embedded as the value none of an
  outer Option layer, distinguished from every ordinary Ok/Err outcome.
-/

namespace Hermes

/-! # hermes_common / file_io.rs -/

/-- The frame size used by the receiving side of the transfer engine
(const BUFF_SIZE in file_io.rs). -/
def BUFF_SIZE : Nat := 4096

/-- Embeds the frame-splitting loop of split_binary_for_network:
while the iterator still has elements, collect up to 10 of them
(vals.by_ref().take(10)) into the next frame. -/
def chunkTen : List Nat → List (List Nat)
  | [] => []
  | a1 :: a2 :: a3 :: a4 :: a5 :: a6 :: a7 :: a8 :: a9 :: a10 :: rest =>
      [a1, a2, a3, a4, a5, a6, a7, a8, a9, a10] :: chunkTen rest
  | l => [l]

/-- Embeds split_binary_for_network from file_io.rs: compute
windows = contents.len() / 4096 + 1; if windows == 1 return the whole
input as a single frame, otherwise split it by the take(10) loop. -/
def split_binary_for_network (contents : List Nat) : List (List Nat) :=
  let windows := contents.length / 4096 + 1
  if windows == 1 then
    [contents]
  else
    chunkTen contents

/-- A UTF-8 continuation byte (0x80 to 0xBF). -/
def isUtf8Cont (b : Nat) : Bool := 128 ≤ b && b ≤ 191

/-- Strict UTF-8 validity of a byte sequence, as enforced by Rust
std::io::Read::read_to_string (which fails on any invalid UTF-8,
including overlong encodings, surrogate code points and out-of-range
code points). -/
def isValidUtf8 : List Nat → Bool
  | [] => true
  | b :: rest =>
    if b ≤ 127 then isValidUtf8 rest
    else if 194 ≤ b && b ≤ 223 then
      match rest with
      | c1 :: r => isUtf8Cont c1 && isValidUtf8 r
      | [] => false
    else if b == 224 then
      match rest with
      | c1 :: c2 :: r => (160 ≤ c1 && c1 ≤ 191) && isUtf8Cont c2 && isValidUtf8 r
      | _ => false
    else if (225 ≤ b && b ≤ 236) || b == 238 || b == 239 then
      match rest with
      | c1 :: c2 :: r => isUtf8Cont c1 && isUtf8Cont c2 && isValidUtf8 r
      | _ => false
    else if b == 237 then
      match rest with
      | c1 :: c2 :: r => (128 ≤ c1 && c1 ≤ 159) && isUtf8Cont c2 && isValidUtf8 r
      | _ => false
    else if b == 240 then
      match rest with
      | c1 :: c2 :: c3 :: r =>
          (144 ≤ c1 && c1 ≤ 191) && isUtf8Cont c2 && isUtf8Cont c3 && isValidUtf8 r
      | _ => false
    else if 241 ≤ b && b ≤ 243 then
      match rest with
      | c1 :: c2 :: c3 :: r =>
          isUtf8Cont c1 && isUtf8Cont c2 && isUtf8Cont c3 && isValidUtf8 r
      | _ => false
    else if b == 244 then
      match rest with
      | c1 :: c2 :: c3 :: r =>
          (128 ≤ c1 && c1 ≤ 143) && isUtf8Cont c2 && isUtf8Cont c3 && isValidUtf8 r
      | _ => false
    else false

/-- Embeds read_file_for_network from file_io.rs. The argument is the
byte content of the file at the requested path, or none when File::open
fails. The function reads the file as text (read_to_string into a
String), which fails whenever the bytes are not valid UTF-8; on success
buff.into_bytes() returns exactly the same bytes, which are then split
into frames. -/
def read_file_for_network (fileBytes : Option (List Nat)) : Option (List (List Nat)) :=
  match fileBytes with
  | none => none
  | some bytes =>
    if isValidUtf8 bytes then
      some (split_binary_for_network bytes)
    else
      none

/-- Embeds struct JsonFile from file_io.rs: the only field is the
optional path of the currently open document. -/
structure JsonFile where
  path : Option String
deriving DecidableEq

/-- JsonFile::new. -/
def JsonFile.new : JsonFile := ⟨none⟩

/-- JsonFile::is_open. -/
def JsonFile.is_open (f : JsonFile) : Bool := f.path.isSome

/-- Embeds JsonFile::open. The readFile argument is the ambient
filesystem: reading a path yields its contents, or none on failure.
The result is none exactly when the Rust code panics: in the fallback
branch the source calls File::create(self.path.as_ref().unwrap()), and
at that point self.path is necessarily None (the is_open guard at entry
already returned otherwise), so the unwrap panics. On a successful read
the stored path is updated only after every error could have occurred. -/
def JsonFile.openJF (f : JsonFile) (readFile : String → Option String) (path : String) :
    Option (JsonFile × Except String String) :=
  if f.is_open then
    some (f, Except.error "file already opened")
  else
    match readFile path with
    | some contents => some (⟨some path⟩, Except.ok contents)
    | none => none

/-! # hermes_server / credentials.rs -/

/-- Embeds struct Credentials: a username/password pair; equality is
structural (derived PartialEq compares both fields). -/
structure Credentials where
  username : String
  password : String
deriving DecidableEq

/-- Embeds struct UserDatabase: the optional path of the backing file
and the in-memory list of users. -/
structure UserDatabase where
  path : Option String
  users : List Credentials
deriving DecidableEq

/-- UserDatabase::new. -/
def UserDatabase.new : UserDatabase := ⟨none, []⟩

/-- Embeds UserDatabase::validate: returns false when self.path is
None, otherwise loops over every indexed pair of records and returns
false as soon as a record has an empty username or password, or two
distinct indices hold equal records. -/
def UserDatabase.validate (db : UserDatabase) : Bool :=
  if db.path.isNone then
    false
  else
    db.users.enum.all fun ic =>
      db.users.enum.all fun jc =>
        !(ic.2.username.isEmpty || ic.2.password.isEmpty ||
          (ic.1 != jc.1 && ic.2 == jc.2))

/-- Embeds UserDatabase::open as a state-passing function. The
contents argument is what reading (or creating and then reading) the
file at the requested path yields, none standing for an I/O failure;
the parse argument is serde_json deserialization of a credential list,
none standing for a parse error. Mirroring the source: empty contents
are replaced by the document text of an empty list before parsing, the
parsed list is assigned to self.users before validation runs, and
self.path is never assigned anywhere in the function. -/
def UserDatabase.openDB (db : UserDatabase) (contents : Option String)
    (parse : String → Option (List Credentials)) : UserDatabase × Except String Unit :=
  if db.path.isSome then
    (db, Except.error "already open")
  else
    match contents with
    | none => (db, Except.error "could not read")
    | some c0 =>
      let c := if c0.isEmpty then "[ ]" else c0
      match parse c with
      | none => (db, Except.error "parsing error")
      | some l =>
        let db1 : UserDatabase := { db with users := l }
        if db1.validate then
          (db1, Except.ok ())
        else
          (db1, Except.error "Duplicate or empty records found")

/-- Embeds UserDatabase::get_user: the statement self.path.as_ref()?
returns none early when no path is set; otherwise a linear find by
username. -/
def UserDatabase.get_user (db : UserDatabase) (username : String) : Option Credentials :=
  match db.path with
  | none => none
  | some _ => db.users.find? fun x => x.username == username

/-- Embeds UserDatabase.get_user_mut exactly as written: the source
line reads self.path.as_ref(); with no question mark, so its value is
discarded and no early return happens; the find over self.users runs
unconditionally. -/
def UserDatabase.get_user_mut (db : UserDatabase) (username : String) : Option Credentials :=
  db.users.find? fun x => x.username == username

/-- Embeds UserDatabase::validate_user: three-valued outcome. -/
def UserDatabase.validate_user (db : UserDatabase) (username password : String) : Option Bool :=
  match db.get_user username with
  | none => none
  | some target => some (target.password == password)

/-! # hermes_common / network_stats.rs -/

/-- Embeds struct TransferStats, with f32 fields embedded as exact
rationals. -/
structure TransferStats where
  file_size : Nat
  transfer_time : ℚ
  data_rate : ℚ
  latency : ℚ
  ip : String
deriving DecidableEq

/-- Embeds struct NetworkAnalyzerData: the backing JsonFile and the
in-memory list of statistics. -/
structure NetworkAnalyzerData where
  file : JsonFile
  stats : List TransferStats
deriving DecidableEq

/-- NetworkAnalyzerData::new. -/
def NetworkAnalyzerData.new : NetworkAnalyzerData := ⟨JsonFile.new, []⟩

/-- Embeds NetworkAnalyzerData::calculate_data_rate: convert the file
size to a rational (the source converts u32 to f32) and, when the
transfer time is positive, return (size / time) / 1e6. -/
def calculate_data_rate (file_size : Nat) (transfer_time : ℚ) : Option ℚ :=
  let conv : ℚ := file_size
  if transfer_time > 0 then
    some ((conv / transfer_time) / 1000000)
  else
    none

/-- Embeds NetworkAnalyzerData::record_transfer as a state-passing
function: reject when the backing file is not open; reject when the
data rate is undefined (duration not positive); otherwise push one new
record with latency 1 / duration. -/
def NetworkAnalyzerData.record_transfer (d : NetworkAnalyzerData) (file_size : Nat)
    (duration : ℚ) (ip : String) : NetworkAnalyzerData × Except String Unit :=
  if !d.file.is_open then
    (d, Except.error "no file is loaded")
  else
    match calculate_data_rate file_size duration with
    | none => (d, Except.error "duration is less than or equal to zero")
    | some rate =>
      let latency : ℚ := 1 / duration
      ({ d with stats := d.stats ++ [⟨file_size, duration, rate, latency, ip⟩] },
       Except.ok ())

/-! # hermes_server / io_tools.rs -/

/-- One component of a filesystem path, as produced by Rust
Path::components on Unix: the root directory marker or a normal
component. A canonicalized path is the root marker followed by normal
components. -/
inductive PComponent where
  | rootDir : PComponent
  | normal : String → PComponent
deriving DecidableEq

/-- A path is its list of components; Path::iter and Path::components
both enumerate exactly this list, and PathBuf equality compares it. -/
abbrev RPath := List PComponent

/-- Rust Path::is_absolute on Unix: the path has a root, i.e. its
first component is the root directory marker. -/
def RPath.is_absolute (p : RPath) : Bool :=
  match p with
  | PComponent.rootDir :: _ => true
  | _ => false

/-- Embeds is_path_valid from io_tools.rs, with the ambient
root_directory() value passed as the root_dir argument: compare
component counts, then either whole-path equality, or rejection when
the path is shorter than the root, or equality of the path's leading
root_dir-many components (PathBuf::from_iter of components().take)
with the root. -/
def is_path_valid (root_dir p : RPath) : Bool :=
  let our_path_len := p.length
  let target_size := root_dir.length
  if our_path_len == target_size && p == root_dir then
    true
  else if our_path_len < target_size then
    false
  else
    p.take target_size == root_dir

/-- Rust Path::strip_prefix (named pathRemoveBase here because the
original name collides with a reserved suffix): when base's component
sequence is a leading run of p's, the remaining components, otherwise
an error, mapped to Option by the .ok() in the caller. -/
def pathRemoveBase (p base : RPath) : Option RPath :=
  if p.take base.length == base then
    some (p.drop base.length)
  else
    none

/-- Embeds make_relative from io_tools.rs, with the ambient
root_directory() value passed as the root argument: no result for an
invalid path; an absolute path is returned unchanged; otherwise the
root is stripped from the front. -/
def make_relative (root p : RPath) : Option RPath :=
  if !(is_path_valid root p) then
    none
  else if p.is_absolute then
    some p
  else
    pathRemoveBase p root

/-- Embeds enum FileType from file_io.rs. -/
inductive FileType where
  | Text | Audio | Video | Binary | Archive
deriving DecidableEq

/-- Embeds struct ServerFile: stable id, path, kind, optional owner.
Derived structural equality is used only to state theorems; the
source's PartialEq (id comparison) is not needed by any claim. -/
structure ServerFile where
  id : Nat
  path : RPath
  kind : FileType
  owner : Option Credentials
deriving DecidableEq

/-- Embeds struct FileDatabase: backing JsonFile, record list, and the
monotonic id counter. -/
structure FileDatabase where
  file : JsonFile
  data : List ServerFile
  curr_id : Nat
deriving DecidableEq

/-- FileDatabase::new. -/
def FileDatabase.new : FileDatabase := ⟨JsonFile.new, [], 0⟩

/-- Rust Iterator::max over a list of naturals: none on the empty
list, otherwise the maximum element. -/
def listMax : List Nat → Option Nat
  | [] => none
  | x :: xs =>
    match listMax xs with
    | none => some x
    | some m => some (Nat.max x m)

/-- The value FileDatabase::open assigns to curr_id: the maximum id of
the loaded records, or 0 when the list is empty. -/
def maxIdOf (l : List ServerFile) : Nat :=
  match listMax (l.map fun x => x.id) with
  | some x => x
  | none => 0

/-- Embeds FileDatabase::open as a state-passing function: open the
backing JsonFile at the path (the outer none propagates the JsonFile
panic), parse the contents as a record list (the parse argument stands
for serde_json, none being a parse error), and on success store the
list and set curr_id to the maximum existing id (0 if the list is
empty). -/
def FileDatabase.openFD (db : FileDatabase) (readFile : String → Option String)
    (parse : String → Option (List ServerFile)) (path : String) :
    Option (FileDatabase × Except String Unit) :=
  match db.file.openJF readFile path with
  | none => none
  | some (jf, Except.error e) => some ({ db with file := jf }, Except.error e)
  | some (jf, Except.ok contents) =>
    match parse contents with
    | none => some ({ db with file := jf }, Except.error "parse error")
    | some l =>
      some ({ db with file := jf, data := l, curr_id := maxIdOf l }, Except.ok ())

/-- Embeds FileDatabase::register_file as a state-passing function.
The ex argument is the ambient filesystem existence check used by
ServerFile::new. Mirroring the source: the duplicate-path check runs
first and mutates nothing; then get_next_id() increments curr_id (Rust
evaluates the arguments of ServerFile::new before its body runs), and
only afterwards does ServerFile::new test path.exists(), so a
nonexistent path leaves the incremented counter behind. -/
def FileDatabase.register_file (db : FileDatabase) (ex : RPath → Bool) (path : RPath)
    (owner : Option Credentials) (kind : FileType) : FileDatabase × Except String Nat :=
  match db.data.find? (fun x => x.path == path) with
  | some i =>
    (db, Except.error ("path previously contained by owner " ++
      (match i.owner with
       | some u => u.username
       | none => "any")))
  | none =>
    let db1 : FileDatabase := { db with curr_id := db.curr_id + 1 }
    let new_id := db1.curr_id
    if ex path then
      ({ db1 with data := db1.data ++ [⟨new_id, path, kind, owner⟩] }, Except.ok new_id)
    else
      (db1, Except.error "path provided does not exist")

/-! # Auxiliary definitions used by the theorems -/

deriving instance DecidableEq for Except

/-- Whether an Except value is the Ok variant (Rust Result::is_ok). -/
def exceptIsOk : Except ε α → Bool
  | Except.ok _ => true
  | Except.error _ => false

/-- A concrete sandbox root for the path theorems, standing for the
ambient root_directory() value. -/
def root0 : RPath :=
  [PComponent.rootDir, PComponent.normal "home", PComponent.normal "cnt",
   PComponent.normal "data"]

/-- A concrete path strictly below root0. -/
def p0 : RPath := root0 ++ [PComponent.normal "f.txt"]

/-- A concrete path outside root0. -/
def pBad : RPath := [PComponent.rootDir, PComponent.normal "etc"]

/-- Concrete registered paths for the registry theorems. -/
def pa0 : RPath := [PComponent.rootDir, PComponent.normal "a"]

def pb0 : RPath := [PComponent.rootDir, PComponent.normal "b"]

def pc0 : RPath := [PComponent.rootDir, PComponent.normal "c"]

/-- A filesystem in which every read succeeds with a fixed document. -/
def rd0 : String → Option String := fun _ => some "doc"

/-- The record list persisted before the highest-id record was
removed: ids 1 and 2 were both persisted. -/
def persistedBefore : List ServerFile :=
  [⟨1, pa0, FileType.Text, none⟩, ⟨2, pb0, FileType.Text, none⟩]

/-- The persisted record list after the record with the highest id
(id 2) was removed. -/
def afterRemoval : List ServerFile := [⟨1, pa0, FileType.Text, none⟩]

/-- A serde layer whose parse always yields the list after removal. -/
def pr0 : String → Option (List ServerFile) := fun _ => some afterRemoval

/-- A concrete opened telemetry store with no records. -/
def d0 : NetworkAnalyzerData := ⟨⟨some "stats.json"⟩, []⟩

/-- The registry state after one successful registration on a fresh
instance. -/
def dbAfterReg : FileDatabase := ⟨JsonFile.new, [⟨1, pc0, FileType.Text, none⟩], 1⟩

/-- The registry state after reloading the persisted list from which
the highest-id record was removed. -/
def dbReloaded : FileDatabase := ⟨⟨some "files.json"⟩, afterRemoval, 1⟩

/-! # Helper lemmas -/

/-- Concatenating the frames produced by the take(10) loop restores
the input. -/
theorem chunkTen_flatten : ∀ l : List Nat, (chunkTen l).flatten = l := by
  intro l
  induction l using chunkTen.induct with
  | case1 => simp [chunkTen]
  | case2 a1 a2 a3 a4 a5 a6 a7 a8 a9 a10 rest ih => simp [chunkTen, ih]
  | case3 l h1 h2 => simp [chunkTen]

/-- listMax of a nonempty list is some value. -/
theorem listMax_cons_isSome (x : Nat) (xs : List Nat) : (listMax (x :: xs)).isSome := by
  cases h : listMax xs with
  | none => simp [listMax, h]
  | some m => simp [listMax, h]

/-- Every member of a list is at most its listMax. -/
theorem le_listMax : ∀ (xs : List Nat) (x : Nat), x ∈ xs →
    ∀ m, listMax xs = some m → x ≤ m := by
  intro xs
  induction xs with
  | nil => intro x hx; cases hx
  | cons y ys ih =>
    intro x hx m hm
    cases h : listMax ys with
    | none =>
      rw [listMax, h] at hm
      cases hm
      cases hx with
      | head => exact Nat.le_refl _
      | tail _ hmem =>
        cases ys with
        | nil => cases hmem
        | cons z zs =>
          have := listMax_cons_isSome z zs
          rw [h] at this
          cases this
    | some m0 =>
      rw [listMax, h] at hm
      cases hm
      cases hx with
      | head => exact Nat.le_max_left _ _
      | tail _ hmem => exact Nat.le_trans (ih x hmem m0 h) (Nat.le_max_right _ _)

/-- Every record id in a list is at most maxIdOf of the list. -/
theorem le_maxIdOf (l : List ServerFile) (f : ServerFile) (hf : f ∈ l) :
    f.id ≤ maxIdOf l := by
  have hmem : f.id ∈ l.map (fun x => x.id) := List.mem_map.mpr ⟨f, hf, rfl⟩
  unfold maxIdOf
  cases h : listMax (l.map fun x => x.id) with
  | none =>
    cases l with
    | nil => cases hf
    | cons a as =>
      have := listMax_cons_isSome a.id (as.map fun x => x.id)
      rw [List.map_cons] at h
      rw [h] at this
      cases this
  | some m => exact le_listMax _ _ hmem m h

/-- Splitting a replicated list of length 10*k + r with 0 < r ≤ 9 by
the take(10) loop yields k full frames of 10 and one final frame of
r. -/
theorem chunkTen_replicate (k : Nat) : ∀ r : Nat, 0 < r → r ≤ 9 → ∀ x : Nat,
    chunkTen (List.replicate (10 * k + r) x) =
      List.replicate k (List.replicate 10 x) ++ [List.replicate r x] := by
  induction k with
  | zero =>
    intro r hr hr9 x
    interval_cases r <;> rfl
  | succ k ih =>
    intro r hr hr9 x
    have hsplit : 10 * (k + 1) + r = 10 + (10 * k + r) := by ring
    have hten : List.replicate 10 x = [x, x, x, x, x, x, x, x, x, x] := rfl
    rw [hsplit, List.replicate_add, hten]
    simp only [List.append_eq, List.cons_append, List.nil_append, chunkTen]
    rw [ih r hr hr9 x, hten]
    simp [List.replicate_succ]

/-! # Claim theorems -/

/-- C1: the claim says UserDatabase::open succeeds on every document
that parses to a valid credential list and that a failed open leaves
the store not partially loaded. The code contradicts it: open never
assigns self.path, validate returns false whenever self.path is None,
so open on a fresh database rejects even the valid one-record list,
and it has already assigned the parsed records to self.users when it
fails. This theorem evaluates the embedded open at that failing
input. -/
theorem c1_open_valid_doc_fails :
    UserDatabase.new.openDB (some "doc") (fun _ => some [⟨"a", "b"⟩]) =
      (⟨none, [⟨"a", "b"⟩]⟩, Except.error "Duplicate or empty records found") := rfl

/-- C2: the claim says JsonFile::open on a failed read creates a new
empty file at the caller-supplied argument path and proceeds with
empty content. The code instead calls
File::create(self.path.as_ref().unwrap()) on the internal path field,
which is necessarily None at that point, so the fallback panics
instead of creating anything; the panic is embedded as the outer
none. -/
theorem c2_open_fallback_panics :
    JsonFile.new.openJF (fun _ => none) "stats.json" = none := rfl

/-- C3: the claim says split_binary_for_network produces frames of
exactly 4096 bytes (except possibly the last). Evaluating the embedded
function on an input of exactly 4096 bytes shows the code instead
produces 409 frames of 10 bytes and one of 6 bytes, the take(10)
chunk width contradicting the documented BUFF_SIZE frame size of
4096. -/
theorem c3_chunk_width_is_ten :
    (split_binary_for_network (List.replicate 4096 0)).map List.length =
      List.replicate 409 10 ++ [6] := by
  have h2 : split_binary_for_network (List.replicate 4096 0) =
      chunkTen (List.replicate 4096 0) := by
    unfold split_binary_for_network
    simp only [List.length_replicate]
    norm_num
  have hn : (4096 : Nat) = 10 * 409 + 6 := by norm_num
  rw [h2, hn, chunkTen_replicate 409 6 (by norm_num) (by norm_num) 0]
  simp only [List.map_append, List.map_replicate, List.map_cons, List.map_nil,
    List.length_replicate]

/-- C6: the claim says get_user and get_user_mut both return nothing
on an unopened store, including the state reached by a failed open.
The code contradicts it for get_user_mut: the source line
self.path.as_ref(); lacks the question mark, so no early return
happens. After the failed open of the document holding one record
(the path is still None), get_user returns nothing but get_user_mut
returns the loaded record. -/
theorem c6_get_user_mut_ignores_unopened :
    (UserDatabase.new.openDB (some "doc") (fun _ => some [⟨"a", "b"⟩])).1.path = none ∧
    (UserDatabase.new.openDB (some "doc") (fun _ => some [⟨"a", "b"⟩])).1.get_user "a" =
      none ∧
    (UserDatabase.new.openDB (some "doc") (fun _ => some [⟨"a", "b"⟩])).1.get_user_mut "a" =
      some ⟨"a", "b"⟩ :=
  ⟨rfl, rfl, rfl⟩

/-- C7: concatenating in order the frames produced by
split_binary_for_network on a non-empty byte sequence yields the
original sequence verbatim. -/
theorem c7_split_flatten_roundtrip (contents : List Nat) (h : contents ≠ []) :
    (split_binary_for_network contents).flatten = contents := by
  unfold split_binary_for_network
  by_cases hw : contents.length / 4096 + 1 == 1
  · simp [hw]
  · simp [hw, chunkTen_flatten]

/-- Witness for C7 at a concrete input longer than one frame. -/
theorem c7_split_flatten_roundtrip_witness :
    List.replicate 4100 3 ≠ [] ∧
    (split_binary_for_network (List.replicate 4100 3)).flatten = List.replicate 4100 3 :=
  ⟨by decide, c7_split_flatten_roundtrip (List.replicate 4100 3) (by decide)⟩

/-- C10: read_file_for_network returns nothing whenever the bytes of
the file are not valid UTF-8, because the file is read as text
(read_to_string) before being split into frames. -/
theorem c10_read_file_rejects_invalid_utf8 (bytes : List Nat)
    (h : isValidUtf8 bytes = false) :
    read_file_for_network (some bytes) = none := by
  unfold read_file_for_network
  simp [h]

/-- Witness for C10: the single byte 0xFF is not valid UTF-8 and the
file is rejected. -/
theorem c10_read_file_rejects_invalid_utf8_witness :
    isValidUtf8 [255] = false ∧ read_file_for_network (some [255]) = none :=
  ⟨by decide, c10_read_file_rejects_invalid_utf8 [255] (by decide)⟩

/-- C4 counterexample: a canonicalized absolute path strictly below
the sandbox root passes validation, yet make_relative returns it
unchanged, not with the root prefix stripped as the claim states. -/
theorem c4_counterexample :
    is_path_valid root0 p0 = true ∧
    make_relative root0 p0 = some p0 ∧
    make_relative root0 p0 ≠ some (p0.drop root0.length) := by
  refine ⟨rfl, rfl, ?_⟩
  decide

/-- C4 amended: make_relative returns nothing for a path failing
is_path_valid; a path that passes validation and is absolute is
returned unchanged (the root prefix is not stripped); stripping occurs
only in the non-absolute branch. -/
theorem c4_make_relative_amended (root p : RPath) :
    (is_path_valid root p = false → make_relative root p = none) ∧
    (is_path_valid root p = true → p.is_absolute = true → make_relative root p = some p) := by
  constructor
  · intro h
    simp [make_relative, h]
  · intro hv ha
    simp [make_relative, hv, ha]

/-- Witness for the amended C4 at concrete paths inside and outside
the root. -/
theorem c4_make_relative_amended_witness :
    make_relative root0 p0 = some p0 ∧ make_relative root0 pBad = none :=
  ⟨(c4_make_relative_amended root0 p0).2 (by decide) (by decide),
   (c4_make_relative_amended root0 pBad).1 (by decide)⟩

/-- C5 counterexample: register_file on a fresh registry with a path
that does not exist on disk fails and leaves the record list
unchanged, yet the id counter has moved from 0 to 1, contradicting
the claim that a failed call leaves the counter at its prior value. -/
theorem c5_counterexample :
    (FileDatabase.new.register_file (fun _ => false) pc0 none FileType.Text).2 =
      Except.error "path provided does not exist" ∧
    (FileDatabase.new.register_file (fun _ => false) pc0 none FileType.Text).1.data =
      FileDatabase.new.data ∧
    (FileDatabase.new.register_file (fun _ => false) pc0 none FileType.Text).1.curr_id ≠
      FileDatabase.new.curr_id := by
  refine ⟨rfl, rfl, ?_⟩
  decide

/-- C5 amended: whenever register_file returns an error the record
list is unchanged; on a duplicate-path error (the error naming the
current owner, or any) the id counter is also unchanged, but on a
path-does-not-exist error the counter has already been incremented,
so the id allocated by the next successful registration skips one
value. -/
theorem c5_register_file_error_amended (db : FileDatabase) (ex : RPath → Bool)
    (p : RPath) (o : Option Credentials) (k : FileType)
    (h : exceptIsOk (db.register_file ex p o k).2 = false) :
    (db.register_file ex p o k).1.data = db.data ∧
    ((db.data.find? fun x => x.path == p).isSome →
      (db.register_file ex p o k).1.curr_id = db.curr_id) ∧
    ((db.data.find? fun x => x.path == p) = none →
      ex p = false ∧ (db.register_file ex p o k).1.curr_id = db.curr_id + 1) := by
  unfold FileDatabase.register_file at h ⊢
  cases hf : db.data.find? fun x => x.path == p with
  | some i =>
    simp only [hf] at h ⊢
    simp
  | none =>
    simp only [hf] at h ⊢
    cases hex : ex p with
    | true =>
      simp only [hex] at h
      simp [exceptIsOk] at h
    | false =>
      simp only [hex] at h ⊢
      simp

/-- Witness for the amended C5 at a fresh registry and a nonexistent
path. -/
theorem c5_register_file_error_amended_witness :
    (FileDatabase.new.register_file (fun _ => false) pc0 none FileType.Text).1.data =
      FileDatabase.new.data ∧
    (FileDatabase.new.register_file (fun _ => false) pc0 none FileType.Text).1.curr_id =
      FileDatabase.new.curr_id + 1 := by
  have h := c5_register_file_error_amended FileDatabase.new (fun _ => false) pc0 none
    FileType.Text (by decide)
  exact ⟨h.1, (h.2.2 (by decide)).2⟩

/-- C8 counterexample: ids 1 and 2 were persisted; the record with the
highest id (2) was removed and the registry reloaded from the
remaining list, which sets the counter to 1; the next successful
registration then allocates id 2 again, so the allocated id is not
strictly greater than every previously persisted id. -/
theorem c8_counterexample :
    FileDatabase.new.openFD rd0 pr0 "files.json" = some (dbReloaded, Except.ok ()) ∧
    (dbReloaded.register_file (fun _ => true) pc0 none FileType.Text).2 = Except.ok 2 ∧
    2 ∈ persistedBefore.map (fun f => f.id) := by
  refine ⟨rfl, rfl, ?_⟩
  decide

/-- C8 amended: on one instance every successful register_file call
returns curr_id + 1 and sets the counter to that value, and no call
ever decreases the counter, so successive successful ids are strictly
increasing; open sets the counter to the maximum id present in the
loaded list (0 if empty), so every id allocated after a reload is
strictly greater than every id in the loaded list — but an id that was
persisted earlier and removed before the reload can be allocated
again. -/
theorem c8_ids_amended :
    (∀ (db : FileDatabase) (ex : RPath → Bool) (p : RPath) (o : Option Credentials)
        (k : FileType) (db2 : FileDatabase) (i : Nat),
        db.register_file ex p o k = (db2, Except.ok i) →
        i = db.curr_id + 1 ∧ db2.curr_id = db.curr_id + 1) ∧
    (∀ (db : FileDatabase) (ex : RPath → Bool) (p : RPath) (o : Option Credentials)
        (k : FileType), db.curr_id ≤ (db.register_file ex p o k).1.curr_id) ∧
    (∀ (db : FileDatabase) (rd : String → Option String)
        (pr : String → Option (List ServerFile)) (path : String) (db2 : FileDatabase),
        db.openFD rd pr path = some (db2, Except.ok ()) →
        db2.curr_id = maxIdOf db2.data ∧ ∀ f ∈ db2.data, f.id ≤ db2.curr_id) := by
  refine ⟨?_, ?_, ?_⟩
  · intro db ex p o k db2 i h
    unfold FileDatabase.register_file at h
    cases hf : db.data.find? fun x => x.path == p with
    | some j =>
      simp only [hf] at h
      simp at h
    | none =>
      simp only [hf] at h
      cases hex : ex p with
      | false =>
        simp only [hex] at h
        simp at h
      | true =>
        simp only [hex] at h
        simp at h
        obtain ⟨h1, h2⟩ := h
        refine ⟨h2.symm, ?_⟩
        rw [← h1]
  · intro db ex p o k
    unfold FileDatabase.register_file
    cases hf : db.data.find? fun x => x.path == p with
    | some j => simp
    | none =>
      cases hex : ex p with
      | true => simp [hex, Nat.le_succ]
      | false => simp [hex, Nat.le_succ]
  · intro db rd pr path db2 h
    unfold FileDatabase.openFD at h
    cases hj : db.file.openJF rd path with
    | none => simp [hj] at h
    | some pr2 =>
      obtain ⟨jf, res⟩ := pr2
      cases res with
      | error e => simp [hj] at h
      | ok contents =>
        cases hp : pr contents with
        | none => simp [hj, hp] at h
        | some l =>
          simp only [hj, hp, Option.some.injEq, Prod.mk.injEq] at h
          obtain ⟨h1, _⟩ := h
          rw [← h1]
          exact ⟨rfl, fun f hf2 => le_maxIdOf l f hf2⟩

/-- Witness for the amended C8: a fresh registry allocates id 1 on its
first successful registration, and the reloaded registry's counter
equals the maximum id of its loaded list. -/
theorem c8_ids_amended_witness :
    (1 = FileDatabase.new.curr_id + 1 ∧ dbAfterReg.curr_id = FileDatabase.new.curr_id + 1) ∧
    dbReloaded.curr_id = maxIdOf dbReloaded.data :=
  ⟨c8_ids_amended.1 FileDatabase.new (fun _ => true) pc0 none FileType.Text dbAfterReg 1 rfl,
   (c8_ids_amended.2.2 FileDatabase.new rd0 pr0 "files.json" dbReloaded rfl).1⟩

/-- C9: record_transfer rejects when the telemetry store is unopened;
rejects when the duration is not positive and appends nothing;
otherwise appends exactly one record with data_rate equal to
(size / duration) / 1000000 and latency equal to 1 / duration, and
succeeds. -/
theorem c9_record_transfer_spec (d : NetworkAnalyzerData) (size : Nat) (dur : ℚ)
    (ip : String) :
    (d.file.is_open = false →
      d.record_transfer size dur ip = (d, Except.error "no file is loaded")) ∧
    (d.file.is_open = true → dur ≤ 0 →
      d.record_transfer size dur ip =
        (d, Except.error "duration is less than or equal to zero")) ∧
    (d.file.is_open = true → 0 < dur →
      d.record_transfer size dur ip =
        ({ d with stats :=
            d.stats ++ [⟨size, dur, ((size : ℚ) / dur) / 1000000, 1 / dur, ip⟩] },
         Except.ok ())) := by
  refine ⟨?_, ?_, ?_⟩
  · intro h
    simp [NetworkAnalyzerData.record_transfer, h]
  · intro h hd
    simp [NetworkAnalyzerData.record_transfer, h, calculate_data_rate, not_lt.mpr hd]
  · intro h hd
    simp [NetworkAnalyzerData.record_transfer, h, calculate_data_rate, hd]

/-- Witness for C9: on an opened empty store, a 10 MB transfer taking
2 seconds is recorded with the rates given by the formulas. -/
theorem c9_record_transfer_spec_witness :
    d0.file.is_open = true ∧ (0 : ℚ) < 2 ∧
    d0.record_transfer 10000000 2 "ip" =
      ({ d0 with stats :=
          d0.stats ++ [⟨10000000, 2, ((10000000 : ℚ) / 2) / 1000000, 1 / 2, "ip"⟩] },
       Except.ok ()) :=
  ⟨rfl, by norm_num, (c9_record_transfer_spec d0 10000000 2 "ip").2.2 rfl (by norm_num)⟩

end Hermes
